import Mathlib

/-!
Verification of the intake-form core of the `uid` repository
(`src/uid.tsx`): the data model, the step validator `validateStep`,
the triage classifier `computeClassification`, the sanitizer
`sanitizeInput` and the idempotency-key generator `generateSecureId`,
shallowly embedded in Lean 4.
-/

namespace Uid

/-- Constant `MAX_TEXT_LENGTH` from `src/uid.tsx`. -/
def MAX_TEXT_LENGTH : Nat := 5000

/-- Constant `MAX_NAME_LENGTH` from `src/uid.tsx`. -/
def MAX_NAME_LENGTH : Nat := 100

/-- The `severity` enum of `IntakeData`. -/
inductive Severity
  | low | moderate | high | crisis
deriving DecidableEq, Repr

/-- The `housing` enum of `IntakeData`. -/
inductive Housing
  | secure | temporary | sofaSurfing | atRisk | homeless
deriving DecidableEq, Repr

/-- The `employmentStatus` enum of `IntakeData`. -/
inductive EmploymentStatus
  | employed | selfEmployed | unemployed | student | carer | retired | unableToWork
deriving DecidableEq, Repr

/-- The `relationshipStatus` enum of `IntakeData`. -/
inductive RelationshipStatus
  | single | inRelationship | marriedCivil | separated | divorced | widowed
deriving DecidableEq, Repr

/-- The `dependents` enum of `IntakeData`. -/
inductive Dependents
  | none | children | adultDependents | both
deriving DecidableEq, Repr

/-- The `ageBand` enum of `IntakeData`. -/
inductive AgeBand
  | under18 | from18to24 | from25to34 | from35to44 | from45to54 | from55to64 | over65
deriving DecidableEq, Repr

/-- The `preferredContact` enum of `IntakeData`. -/
inductive PreferredContact
  | email | phone | sms
deriving DecidableEq, Repr

/-- The `source` enum of `IntakeData`. -/
inductive Source
  | web | facebook | referral | walkIn | other
deriving DecidableEq, Repr

/-- The `riskFlags` record of `IntakeData`: four independent booleans. -/
structure RiskFlags where
  selfHarm : Bool
  harmToOthers : Bool
  domesticAbuse : Bool
  substanceRisk : Bool
deriving DecidableEq, Repr

/-- The `consent` record of `IntakeData`: four independent booleans. -/
structure Consent where
  privacyPolicyAccepted : Bool
  shareWithPartners : Bool
  anonymisedInsights : Bool
  crisisProtocolOk : Bool
deriving DecidableEq, Repr

/-- The `IntakeData` record of `src/uid.tsx`.  TypeScript optional fields
become `Option`; string-literal unions become the enums above; JavaScript
strings become Lean strings. -/
structure IntakeData where
  firstName : String
  lastName : String
  pronouns : Option String := Option.none
  email : String
  phone : Option String := Option.none
  postcode : Option String := Option.none
  ageBand : Option AgeBand := Option.none
  employmentStatus : Option EmploymentStatus := Option.none
  relationshipStatus : Option RelationshipStatus := Option.none
  housing : Option Housing := Option.none
  dependents : Option Dependents := Option.none
  concerns : List String := []
  concernDetails : Option String := Option.none
  severity : Option Severity := Option.none
  riskFlags : RiskFlags
  gpRegistered : Option Bool := Option.none
  supportPreferences : List String := []
  availability : Option String := Option.none
  preferredContact : Option PreferredContact := Option.none
  consent : Consent
  source : Option Source := Option.none
deriving DecidableEq, Repr

/-- The `priority` values produced by `computeClassification`. -/
inductive Priority
  | Low | Medium | High | Immediate
deriving DecidableEq, Repr

/-- The result record of `computeClassification`.  The JavaScript
`riskScore` is a sum of non-negative contributions, so `Nat`. -/
structure Classification where
  riskScore : Nat
  buckets : List String
  priority : Priority
deriving DecidableEq, Repr

/-- `computeClassification` of `src/uid.tsx` (lines 231-264): additive risk
scoring, bucket derivation in a fixed order from membership in the
`concerns` set, and threshold-based priority.  `Set(d.concerns).has(k)` is
list membership `d.concerns.contains k`. -/
def computeClassification (d : IntakeData) : Classification :=
  let riskScore : Nat :=
    (if d.severity = some Severity.moderate then 2 else 0) +
    (if d.severity = some Severity.high then 4 else 0) +
    (if d.severity = some Severity.crisis then 6 else 0) +
    (if d.riskFlags.selfHarm then 6 else 0) +
    (if d.riskFlags.domesticAbuse then 6 else 0) +
    (if d.riskFlags.harmToOthers then 4 else 0) +
    (if d.riskFlags.substanceRisk then 3 else 0) +
    (if d.housing = some Housing.homeless ∨ d.housing = some Housing.atRisk then 3 else 0) +
    (if d.employmentStatus = some EmploymentStatus.unemployed ∨
        d.employmentStatus = some EmploymentStatus.unableToWork then 2 else 0)
  let buckets : List String :=
    (if "abuse" ∈ d.concerns then ["Safety/Crisis"] else []) ++
    (if "emotional" ∈ d.concerns ∨ "addiction" ∈ d.concerns then
      ["Mental Health & Addiction"] else []) ++
    (if "employment" ∈ d.concerns then ["Employment & Skills"] else []) ++
    (if "finance" ∈ d.concerns then ["Money/Debt Advice"] else []) ++
    (if "housing" ∈ d.concerns then ["Housing Support"] else []) ++
    (if "relationships" ∈ d.concerns then ["Family/Relationship Support"] else []) ++
    (if "health" ∈ d.concerns then ["Physical Health Navigation"] else []) ++
    (if "social" ∈ d.concerns then ["Connection/Peer Support"] else [])
  let priority : Priority :=
    if riskScore ≥ 12 then Priority.Immediate
    else if riskScore ≥ 8 then Priority.High
    else if riskScore ≥ 4 then Priority.Medium
    else Priority.Low
  { riskScore := riskScore, buckets := buckets, priority := priority }

/-- The fixed canonical bucket order of the classifier. -/
def canonicalBucketOrder : List String :=
  ["Safety/Crisis", "Mental Health & Addiction", "Employment & Skills",
   "Money/Debt Advice", "Housing Support", "Family/Relationship Support",
   "Physical Health Navigation", "Connection/Peer Support"]

/-! ### Security helpers (`src/uid.tsx` lines 101-136) -/

/-- The set of characters matched by the JavaScript regex class `\s`
(also the set removed from the ends by `String.prototype.trim`). -/
def isJsWs (c : Char) : Bool :=
  c = ' ' || c = '\t' || c = '\n' || c = '\r' ||
  c = Char.ofNat 0x0B || c = Char.ofNat 0x0C ||
  c = Char.ofNat 0xA0 || c = Char.ofNat 0x1680 ||
  (Char.ofNat 0x2000 ≤ c && c ≤ Char.ofNat 0x200A) ||
  c = Char.ofNat 0x2028 || c = Char.ofNat 0x2029 ||
  c = Char.ofNat 0x202F || c = Char.ofNat 0x205F ||
  c = Char.ofNat 0x3000 || c = Char.ofNat 0xFEFF

/-- JavaScript `String.prototype.trim`: drop `\s` characters from both ends. -/
def jsTrim (l : List Char) : List Char :=
  ((l.dropWhile isJsWs).reverse.dropWhile isJsWs).reverse

/-- `jsTrim` on `String`. -/
def jsTrimS (s : String) : String := ⟨jsTrim s.data⟩

/-- The single-quote character escaped by `sanitizeInput`. -/
def squote : Char := Char.ofNat 39

/-- JavaScript `s.replace(/p/g, r)` for a single-character pattern `p`:
every occurrence of `p` is replaced by `r`, all other characters kept. -/
def replChar (p : Char) (r : List Char) : List Char → List Char
  | [] => []
  | c :: l => (if c = p then r else [c]) ++ replChar p r l

/-- `sanitizeInput` of `src/uid.tsx` (lines 107-116): sequentially replace
the five special characters, then `trim`, then `slice(0, MAX_TEXT_LENGTH)`. -/
def sanitizeInput (s : String) : String :=
  ⟨(jsTrim (replChar '/' ("&#x2F;".data)
      (replChar squote ("&#x27;".data)
        (replChar '"' ("&quot;".data)
          (replChar '>' ("&gt;".data)
            (replChar '<' ("&lt;".data) s.data)))))).take MAX_TEXT_LENGTH⟩

/-- The environment visible to `generateSecureId`: whether
`crypto.randomUUID` is available (and what it would return), whether
`crypto.getRandomValues` is available (and the 16 random bytes it would
fill in), and the wall clock `Date.now()` — which the function must never
consult. -/
structure CryptoEnv where
  randomUUID : Option String
  getRandomValues : Option (List Nat)
  dateNow : Nat
deriving Repr

/-- `b.toString(16).padStart(2, "0")` for a byte. -/
def byteToHex (b : Nat) : List Char :=
  let hexDigit : Nat → Char := fun n =>
    if n < 10 then Char.ofNat (48 + n) else Char.ofNat (87 + n)
  [hexDigit ((b / 16) % 16), hexDigit (b % 16)]

/-- The UUID-formatting arm of `generateSecureId` (lines 127-133): set the
version and variant bits of the 16 random bytes, hex-encode, hyphenate
8-4-4-4-12. -/
def formatUuidFromBytes (bytes : List Nat) : String :=
  let withVersion := bytes.set 6 ((bytes.getD 6 0 % 256) % 16 + 64)
  let withVariant := withVersion.set 8 ((withVersion.getD 8 0 % 256) % 64 + 128)
  let hex := (withVariant.map byteToHex).flatten
  ⟨hex.take 8 ++ ['-'] ++ (hex.drop 8).take 4 ++ ['-'] ++ (hex.drop 12).take 4 ++
    ['-'] ++ (hex.drop 16).take 4 ++ ['-'] ++ hex.drop 20⟩

/-- `generateSecureId` of `src/uid.tsx` (lines 121-136): prefer
`crypto.randomUUID`, fall back to `crypto.getRandomValues`, and throw
(`Except.error`) when neither exists.  The wall clock is passed in but
never consulted. -/
def generateSecureId (env : CryptoEnv) : Except String String :=
  match env.randomUUID with
  | some u => Except.ok u
  | none =>
    match env.getRandomValues with
    | some bytes => Except.ok (formatUuidFromBytes bytes)
    | none => Except.error "Crypto API not available"

/-! ### Validator regexes (`src/uid.tsx` lines 160-163), as explicit
matchers over character lists -/

/-- The regex class `\d`. -/
def isDigitCh (c : Char) : Bool := '0' ≤ c && c ≤ '9'

/-- The case-insensitive class `[A-Z]` (the source regexes carry the `i`
flag). -/
def isAlphaCI (c : Char) : Bool := ('A' ≤ c && c ≤ 'Z') || ('a' ≤ c && c ≤ 'z')

/-- The case-insensitive class `[A-Z\d]`. -/
def isAlnumCI (c : Char) : Bool := isAlphaCI c || isDigitCh c

/-- Consume an exact literal prefix, returning the rest. -/
def dropLit : List Char → List Char → Option (List Char)
  | [], l => some l
  | p :: ps, c :: l => if c = p then dropLit ps l else none
  | _ :: _, [] => none

/-- Consume exactly `n` characters of class `\d`. -/
def dropDigits : Nat → List Char → Option (List Char)
  | 0, l => some l
  | n + 1, c :: l => if isDigitCh c then dropDigits n l else none
  | _ + 1, [] => none

/-- The quantifier `\s?`.  In every position it occurs in the source
regexes the next token matches a non-whitespace character, so greedy
consumption of at most one whitespace character is exact. -/
def optWs : List Char → List Char
  | c :: l => if isJsWs c then l else c :: l
  | [] => []

/-- Split a character list at every occurrence of `sep` (the semantics of
JavaScript `String.prototype.split` with a single-character separator). -/
def splitOnChar (sep : Char) : List Char → List (List Char)
  | [] => [[]]
  | c :: l =>
    match splitOnChar sep l with
    | h :: t => if c = sep then [] :: h :: t else (c :: h) :: t
    | [] => if c = sep then [[], []] else [[c]]

/-- `emailRe = /^[^\s@]+@[^\s@]+\.[^\s@]+$/i`: exactly one `@`; a
non-empty, whitespace-free local part; a whitespace-free domain part
containing a `.` that has at least one character on each side. -/
def emailReTest (s : String) : Bool :=
  match splitOnChar '@' s.data with
  | [a, b] =>
    !a.isEmpty && a.all (fun c => !isJsWs c) &&
    !b.isEmpty && b.all (fun c => !isJsWs c) &&
    ((b.drop 1).dropLast.contains '.')
  | _ => false

/-- The mobile head `(\+44\s?7\d{3}|07\d{3})` of `ukPhoneRe`. -/
def ukMobileHead (l : List Char) : Option (List Char) :=
  (do
    let l1 ← dropLit ['+', '4', '4'] l
    let l2 ← dropLit ['7'] (optWs l1)
    dropDigits 3 l2) <|>
  (do
    let l1 ← dropLit ['0', '7'] l
    dropDigits 3 l1)

/-- The mobile tail `\s?\d{3}\s?\d{3}$` of `ukPhoneRe`. -/
def ukMobileTail (l : List Char) : Bool :=
  match dropDigits 3 (optWs l) with
  | some l2 => dropDigits 3 (optWs l2) = some []
  | none => false

/-- The landline head `(\+44\s?1\d{3}|01\d{3}|\+44\s?2\d{2}|02\d{2})`. -/
def ukLandlineHead (l : List Char) : Option (List Char) :=
  (do
    let l1 ← dropLit ['+', '4', '4'] l
    let l2 ← dropLit ['1'] (optWs l1)
    dropDigits 3 l2) <|>
  (do
    let l1 ← dropLit ['0', '1'] l
    dropDigits 3 l1) <|>
  (do
    let l1 ← dropLit ['+', '4', '4'] l
    let l2 ← dropLit ['2'] (optWs l1)
    dropDigits 2 l2) <|>
  (do
    let l1 ← dropLit ['0', '2'] l
    dropDigits 2 l1)

/-- The landline tail `\s?\d{3,4}\s?\d{3,4}$`, trying both widths of each
`\d{3,4}` group. -/
def ukLandlineTail (l : List Char) : Bool :=
  [3, 4].any fun k1 =>
    match dropDigits k1 (optWs l) with
    | some l2 => [3, 4].any fun k2 => dropDigits k2 (optWs l2) = some []
    | none => false

/-- `ukPhoneRe` of `src/uid.tsx` line 162. -/
def ukPhoneReTest (s : String) : Bool :=
  (match ukMobileHead s.data with
   | some l => ukMobileTail l
   | none => false) ||
  (match ukLandlineHead s.data with
   | some l => ukLandlineTail l
   | none => false)

/-- The postcode tail `\s?\d[A-Z]{2}$`. -/
def postcodeEnd (l : List Char) : Bool :=
  match optWs l with
  | [d, a, b] => isDigitCh d && isAlphaCI a && isAlphaCI b
  | _ => false

/-- The postcode middle `[A-Z\d]?` followed by the tail, trying both
widths of the optional class. -/
def postcodeAfterDigit (l : List Char) : Bool :=
  postcodeEnd l ||
  (match l with
   | c :: l2 => isAlnumCI c && postcodeEnd l2
   | [] => false)

/-- `postcodeRe = /^[A-Z]{1,2}\d[A-Z\d]?\s?\d[A-Z]{2}$/i`, trying both
widths of `[A-Z]{1,2}`. -/
def postcodeReTest (s : String) : Bool :=
  match s.data with
  | a :: rest =>
    isAlphaCI a &&
    ((match rest with
      | d :: l => isDigitCh d && postcodeAfterDigit l
      | [] => false) ||
     (match rest with
      | b :: d :: l => isAlphaCI b && isDigitCh d && postcodeAfterDigit l
      | _ => false))
  | [] => false

/-! ### `validateStep` (`src/uid.tsx` lines 165-228) -/

/-- `validateStep` of `src/uid.tsx`: the `errors` object modelled as an
association list in insertion order; an empty list is an empty mapping.
The step number is an `Int` (a JavaScript number).  JavaScript truthiness:
a missing optional is `undefined`, an empty string is falsy. -/
def validateStep (step : Int) (d : IntakeData) : List (String × String) :=
  (if step = 1 then
    (if jsTrimS d.firstName = "" then [("firstName", "First name is required")]
     else if d.firstName.length > MAX_NAME_LENGTH then
       [("firstName", "First name must be less than 100 characters")]
     else []) ++
    (if jsTrimS d.lastName = "" then [("lastName", "Last name is required")]
     else if d.lastName.length > MAX_NAME_LENGTH then
       [("lastName", "Last name must be less than 100 characters")]
     else []) ++
    (if jsTrimS d.email = "" ∨ emailReTest d.email = false then
      [("email", "Enter a valid email address")] else []) ++
    (match d.phone with
     | some p => if p ≠ "" ∧ ukPhoneReTest p = false then
         [("phone", "Enter a valid UK phone number")] else []
     | none => []) ++
    (match d.postcode with
     | some p => if p ≠ "" ∧ postcodeReTest p = false then
         [("postcode", "Enter a valid UK postcode (e.g., SW1A 1AA)")] else []
     | none => [])
   else []) ++
  (if step = 2 then
    (if d.employmentStatus = none then
      [("employmentStatus", "Select your current employment status")] else []) ++
    (if d.relationshipStatus = none then
      [("relationshipStatus", "Select your current relationship status")] else []) ++
    (if d.housing = none then
      [("housing", "Select your housing situation")] else [])
   else []) ++
  (if step = 3 then
    (if d.concerns = [] then
      [("concerns", "Pick at least one area you want help with")] else []) ++
    (if d.severity = none then
      [("severity", "How urgent/severe does this feel right now?")] else []) ++
    (match d.concernDetails with
     | some t => if t ≠ "" ∧ t.length > MAX_TEXT_LENGTH then
         [("concernDetails", "Details must be less than 5000 characters")] else []
     | none => [])
   else []) ++
  (if step = 4 then
    (if d.preferredContact = none then
      [("preferredContact", "Choose how we should contact you")] else [])
   else []) ++
  (if step = 5 then
    (if d.consent.privacyPolicyAccepted = false then
      [("privacy", "You must accept the Privacy Policy to continue")] else []) ++
    (if d.consent.crisisProtocolOk = false ∧
        (d.severity = some Severity.high ∨ d.severity = some Severity.crisis) then
      [("crisis", "Please acknowledge the crisis protocol")] else [])
   else [])

/-! ### Concrete records -/

/-- The initial wizard record of `src/uid.tsx` (the `useState` initial
value, lines 272-303). -/
def initialData : IntakeData :=
  { firstName := "", lastName := "", email := "",
    phone := some "", postcode := some "", pronouns := some "",
    ageBand := none,
    employmentStatus := none, relationshipStatus := none, housing := none,
    dependents := some Dependents.none,
    concerns := [], concernDetails := some "", severity := none,
    riskFlags := ⟨false, false, false, false⟩,
    gpRegistered := none,
    supportPreferences := [], availability := some "", preferredContact := none,
    consent := ⟨false, false, true, false⟩,
    source := some Source.web }

/-- Scenario 1 of the spec: severity crisis, no risk flags, secure
housing, employed, concerns `["emotional"]`. -/
def scenarioOne : IntakeData :=
  { initialData with
    firstName := "Alex", lastName := "Smith", email := "alex@example.org",
    severity := some Severity.crisis,
    housing := some Housing.secure,
    employmentStatus := some EmploymentStatus.employed,
    concerns := ["emotional"],
    consent := ⟨true, false, true, true⟩ }

/-- Scenario 4 of the spec: severity high, `crisisProtocolOk` false. -/
def scenarioFour : IntakeData :=
  { initialData with
    severity := some Severity.high,
    consent := ⟨true, false, true, false⟩ }

/-- Scenario 3 of the spec: empty first name, last name Smith, malformed
email. -/
def scenarioThree : IntakeData :=
  { initialData with
    firstName := "", lastName := "Smith", email := "not-an-email",
    phone := none, postcode := none }

/-! ### Helper characterizations of the classifier -/

/-- The severity contribution to the risk score. -/
def severityWeight : Option Severity → Nat
  | some Severity.moderate => 2
  | some Severity.high => 4
  | some Severity.crisis => 6
  | _ => 0

/-- The risk-flag contribution to the risk score. -/
def riskFlagsWeight (f : RiskFlags) : Nat :=
  (if f.selfHarm then 6 else 0) + (if f.domesticAbuse then 6 else 0) +
  (if f.harmToOthers then 4 else 0) + (if f.substanceRisk then 3 else 0)

/-- The housing contribution to the risk score. -/
def housingWeight : Option Housing → Nat
  | some Housing.homeless => 3
  | some Housing.atRisk => 3
  | _ => 0

/-- The employment contribution to the risk score. -/
def employmentWeight : Option EmploymentStatus → Nat
  | some EmploymentStatus.unemployed => 2
  | some EmploymentStatus.unableToWork => 2
  | _ => 0

lemma severityWeight_eq (s : Option Severity) :
    (if s = some Severity.moderate then 2 else 0) +
      (if s = some Severity.high then 4 else 0) +
      (if s = some Severity.crisis then 6 else 0) = severityWeight s := by
  rcases s with _ | v
  · rfl
  · cases v <;> rfl

lemma housingWeight_eq (h : Option Housing) :
    (if h = some Housing.homeless ∨ h = some Housing.atRisk then 3 else 0) =
      housingWeight h := by
  rcases h with _ | v
  · rfl
  · cases v <;> simp [housingWeight]

lemma employmentWeight_eq (e : Option EmploymentStatus) :
    (if e = some EmploymentStatus.unemployed ∨
        e = some EmploymentStatus.unableToWork then 2 else 0) =
      employmentWeight e := by
  rcases e with _ | v
  · rfl
  · cases v <;> simp [employmentWeight]

/-- The risk score is the sum of the four independent field weights. -/
lemma riskScore_eq_weights (d : IntakeData) :
    (computeClassification d).riskScore =
      severityWeight d.severity + riskFlagsWeight d.riskFlags +
        housingWeight d.housing + employmentWeight d.employmentStatus := by
  have h : (computeClassification d).riskScore =
      (if d.severity = some Severity.moderate then 2 else 0) +
      (if d.severity = some Severity.high then 4 else 0) +
      (if d.severity = some Severity.crisis then 6 else 0) +
      (if d.riskFlags.selfHarm then 6 else 0) +
      (if d.riskFlags.domesticAbuse then 6 else 0) +
      (if d.riskFlags.harmToOthers then 4 else 0) +
      (if d.riskFlags.substanceRisk then 3 else 0) +
      (if d.housing = some Housing.homeless ∨ d.housing = some Housing.atRisk
        then 3 else 0) +
      (if d.employmentStatus = some EmploymentStatus.unemployed ∨
          d.employmentStatus = some EmploymentStatus.unableToWork
        then 2 else 0) := rfl
  rw [h, ← severityWeight_eq d.severity, ← housingWeight_eq d.housing,
    ← employmentWeight_eq d.employmentStatus]
  simp only [riskFlagsWeight]
  omega

/-! ### Claim theorems -/

/-- **C1.** For every `IntakeRecord`, `computeClassification` returns a
`riskScore` equal to the sum of independent contributions — +2 moderate,
+4 high, +6 crisis, +0 low or unset; +6 selfHarm, +6 domesticAbuse,
+4 harmToOthers, +3 substanceRisk; +3 homeless or at-risk housing;
+2 unemployed or unable to work — and consequently
`0 ≤ riskScore ≤ 30`. -/
theorem riskScore_is_additive_sum_and_bounded (d : IntakeData) :
    (computeClassification d).riskScore =
      (match d.severity with
        | some Severity.moderate => 2
        | some Severity.high => 4
        | some Severity.crisis => 6
        | _ => 0) +
      (if d.riskFlags.selfHarm then 6 else 0) +
      (if d.riskFlags.domesticAbuse then 6 else 0) +
      (if d.riskFlags.harmToOthers then 4 else 0) +
      (if d.riskFlags.substanceRisk then 3 else 0) +
      (if d.housing = some Housing.homeless ∨ d.housing = some Housing.atRisk
        then 3 else 0) +
      (if d.employmentStatus = some EmploymentStatus.unemployed ∨
          d.employmentStatus = some EmploymentStatus.unableToWork
        then 2 else 0) ∧
    (computeClassification d).riskScore ≤ 30 := by
  constructor
  · simp only [computeClassification]
    rcases hs : d.severity with _ | s
    · simp
    · cases s <;> simp
  · simp only [computeClassification]
    rcases hs : d.severity with _ | s
    · simp only [reduceCtorEq, if_false]
      repeat' split
      all_goals omega
    · cases s <;>
        · simp only [Option.some.injEq, reduceCtorEq, if_false, if_true]
          repeat' split
          all_goals omega

/-- **C2.** The priority is a function of `riskScore` alone, by inclusive
lower-bound thresholds 12/8/4, highest winning; and the spec scenario
(crisis severity, no flags, secure housing, employed, concerns
`["emotional"]`) classifies as riskScore 6, priority Medium, buckets
`["Mental Health & Addiction"]`. -/
theorem priority_is_threshold_function_of_riskScore (d : IntakeData) :
    (computeClassification d).priority =
      (if 12 ≤ (computeClassification d).riskScore then Priority.Immediate
       else if 8 ≤ (computeClassification d).riskScore then Priority.High
       else if 4 ≤ (computeClassification d).riskScore then Priority.Medium
       else Priority.Low) ∧
    computeClassification scenarioOne =
      { riskScore := 6, buckets := ["Mental Health & Addiction"],
        priority := Priority.Medium } := by
  exact ⟨rfl, by decide⟩

/-- **C9.** Two records that differ only in `concerns` get the same
`riskScore` and the same `priority`: the concerns selection influences
only the buckets. -/
theorem concerns_do_not_affect_score_or_priority (d : IntakeData) (c : List String) :
    (computeClassification { d with concerns := c }).riskScore =
      (computeClassification d).riskScore ∧
    (computeClassification { d with concerns := c }).priority =
      (computeClassification d).priority :=
  ⟨rfl, rfl⟩

/-- **C8.** Transitioning any single contributing field or flag from a
zero-weight state to any other state, holding all else constant, never
decreases the `riskScore`. -/
theorem riskScore_monotone_in_each_contribution (d : IntakeData) :
    (∀ s₀ s₁ : Option Severity, s₀ = none ∨ s₀ = some Severity.low →
      (computeClassification { d with severity := s₀ }).riskScore ≤
        (computeClassification { d with severity := s₁ }).riskScore) ∧
    ((computeClassification
        { d with riskFlags := { d.riskFlags with selfHarm := false } }).riskScore ≤
      (computeClassification
        { d with riskFlags := { d.riskFlags with selfHarm := true } }).riskScore) ∧
    ((computeClassification
        { d with riskFlags := { d.riskFlags with domesticAbuse := false } }).riskScore ≤
      (computeClassification
        { d with riskFlags := { d.riskFlags with domesticAbuse := true } }).riskScore) ∧
    ((computeClassification
        { d with riskFlags := { d.riskFlags with harmToOthers := false } }).riskScore ≤
      (computeClassification
        { d with riskFlags := { d.riskFlags with harmToOthers := true } }).riskScore) ∧
    ((computeClassification
        { d with riskFlags := { d.riskFlags with substanceRisk := false } }).riskScore ≤
      (computeClassification
        { d with riskFlags := { d.riskFlags with substanceRisk := true } }).riskScore) ∧
    (∀ h₀ h₁ : Option Housing,
      ¬(h₀ = some Housing.homeless ∨ h₀ = some Housing.atRisk) →
      (computeClassification { d with housing := h₀ }).riskScore ≤
        (computeClassification { d with housing := h₁ }).riskScore) ∧
    (∀ e₀ e₁ : Option EmploymentStatus,
      ¬(e₀ = some EmploymentStatus.unemployed ∨
          e₀ = some EmploymentStatus.unableToWork) →
      (computeClassification { d with employmentStatus := e₀ }).riskScore ≤
        (computeClassification { d with employmentStatus := e₁ }).riskScore) := by
  refine ⟨?_, ?_, ?_, ?_, ?_, ?_, ?_⟩
  · rintro s₀ s₁ (rfl | rfl) <;>
      · simp only [riskScore_eq_weights]
        simp [severityWeight]
  · simp only [riskScore_eq_weights]
    simp [riskFlagsWeight]
  · simp only [riskScore_eq_weights]
    simp [riskFlagsWeight]
  · simp only [riskScore_eq_weights]
    simp [riskFlagsWeight]
  · simp only [riskScore_eq_weights]
    simp [riskFlagsWeight]
  · intro h₀ h₁ h
    simp only [riskScore_eq_weights]
    have e0 : housingWeight h₀ = 0 := by
      rcases h₀ with _ | v
      · rfl
      · cases v <;> simp_all [housingWeight]
    simp [e0]
  · intro e₀ e₁ h
    simp only [riskScore_eq_weights]
    have e0 : employmentWeight e₀ = 0 := by
      rcases e₀ with _ | v
      · rfl
      · cases v <;> simp_all [employmentWeight]
    simp [e0]

/-- Witness for C8 at a concrete record: moving severity from unset to
crisis does not decrease the score. -/
theorem riskScore_monotone_in_each_contribution_witness :
    (computeClassification { initialData with severity := none }).riskScore ≤
      (computeClassification { initialData with severity := some Severity.crisis }).riskScore :=
  (riskScore_monotone_in_each_contribution initialData).1 none
    (some Severity.crisis) (Or.inl rfl)

/-- **C10.** For every step number outside 1-5, `validateStep` returns the
empty error mapping. -/
theorem validateStep_out_of_range_is_empty (step : Int) (d : IntakeData)
    (h : step < 1 ∨ 5 < step) :
    validateStep step d = [] := by
  have h1 : step ≠ 1 := by omega
  have h2 : step ≠ 2 := by omega
  have h3 : step ≠ 3 := by omega
  have h4 : step ≠ 4 := by omega
  have h5 : step ≠ 5 := by omega
  simp [validateStep, h1, h2, h3, h4, h5]

/-- Witness for C10: step 0 on the initial record yields no errors. -/
theorem validateStep_out_of_range_is_empty_witness :
    validateStep 0 initialData = [] :=
  validateStep_out_of_range_is_empty 0 initialData (Or.inl (by decide))

/-- `validateStep` at step 5 is exactly the two consent checks. -/
lemma validateStep_five (d : IntakeData) :
    validateStep 5 d =
      (if d.consent.privacyPolicyAccepted = false then
        [("privacy", "You must accept the Privacy Policy to continue")] else []) ++
      (if d.consent.crisisProtocolOk = false ∧
          (d.severity = some Severity.high ∨ d.severity = some Severity.crisis) then
        [("crisis", "Please acknowledge the crisis protocol")] else []) := by
  simp [validateStep]

/-- **C4.** At step 5, key `privacy` is reported exactly when the privacy
policy is not accepted, and key `crisis` exactly when severity is high or
crisis and the crisis protocol is not acknowledged; in particular the
spec scenario (severity high, `crisisProtocolOk` false) reports
`crisis`. -/
theorem validateStep5_privacy_and_crisis_keys (d : IntakeData) :
    ("privacy" ∈ (validateStep 5 d).map Prod.fst ↔
      d.consent.privacyPolicyAccepted = false) ∧
    ("crisis" ∈ (validateStep 5 d).map Prod.fst ↔
      (d.consent.crisisProtocolOk = false ∧
        (d.severity = some Severity.high ∨ d.severity = some Severity.crisis))) ∧
    "crisis" ∈ (validateStep 5 scenarioFour).map Prod.fst := by
  refine ⟨?_, ?_, by decide⟩ <;>
    · rw [validateStep_five]
      split <;> split <;> simp_all

/-- `validateStep` at step 1 is exactly the five identity checks. -/
lemma validateStep_one (d : IntakeData) :
    validateStep 1 d =
      (if jsTrimS d.firstName = "" then [("firstName", "First name is required")]
       else if d.firstName.length > MAX_NAME_LENGTH then
         [("firstName", "First name must be less than 100 characters")]
       else []) ++
      (if jsTrimS d.lastName = "" then [("lastName", "Last name is required")]
       else if d.lastName.length > MAX_NAME_LENGTH then
         [("lastName", "Last name must be less than 100 characters")]
       else []) ++
      (if jsTrimS d.email = "" ∨ emailReTest d.email = false then
        [("email", "Enter a valid email address")] else []) ++
      (match d.phone with
       | some p => if p ≠ "" ∧ ukPhoneReTest p = false then
           [("phone", "Enter a valid UK phone number")] else []
       | none => []) ++
      (match d.postcode with
       | some p => if p ≠ "" ∧ postcodeReTest p = false then
           [("postcode", "Enter a valid UK postcode (e.g., SW1A 1AA)")] else []
       | none => []) := by
  simp [validateStep]

lemma validateStep1_firstName_key (d : IntakeData) :
    "firstName" ∈ (validateStep 1 d).map Prod.fst ↔
      (jsTrimS d.firstName = "" ∨ d.firstName.length > MAX_NAME_LENGTH) := by
  rw [validateStep_one]
  simp only [List.map_append, List.mem_append]
  rcases d.phone with _ | p <;> rcases d.postcode with _ | q <;>
    · repeat' split
      all_goals simp_all

lemma validateStep1_lastName_key (d : IntakeData) :
    "lastName" ∈ (validateStep 1 d).map Prod.fst ↔
      (jsTrimS d.lastName = "" ∨ d.lastName.length > MAX_NAME_LENGTH) := by
  rw [validateStep_one]
  simp only [List.map_append, List.mem_append]
  rcases d.phone with _ | p <;> rcases d.postcode with _ | q <;>
    · repeat' split
      all_goals simp_all

lemma validateStep1_email_key (d : IntakeData) :
    "email" ∈ (validateStep 1 d).map Prod.fst ↔
      (jsTrimS d.email = "" ∨ emailReTest d.email = false) := by
  rw [validateStep_one]
  simp only [List.map_append, List.mem_append]
  rcases d.phone with _ | p <;> rcases d.postcode with _ | q <;>
    · repeat' split
      all_goals simp_all

/-- **C5.** At step 1, key `firstName` is reported exactly when the first
name is empty after trimming or longer than 100 characters, `lastName`
likewise, and `email` exactly when the email is empty after trimming or
fails the `local@domain.tld` shape; in particular the spec scenario
(first name empty, last name Smith, email `not-an-email`) reports
`firstName` and `email` but not `lastName`. -/
theorem validateStep1_identity_keys (d : IntakeData) :
    ("firstName" ∈ (validateStep 1 d).map Prod.fst ↔
      (jsTrimS d.firstName = "" ∨ d.firstName.length > MAX_NAME_LENGTH)) ∧
    ("lastName" ∈ (validateStep 1 d).map Prod.fst ↔
      (jsTrimS d.lastName = "" ∨ d.lastName.length > MAX_NAME_LENGTH)) ∧
    ("email" ∈ (validateStep 1 d).map Prod.fst ↔
      (jsTrimS d.email = "" ∨ emailReTest d.email = false)) ∧
    ("firstName" ∈ (validateStep 1 scenarioThree).map Prod.fst ∧
      "email" ∈ (validateStep 1 scenarioThree).map Prod.fst ∧
      "lastName" ∉ (validateStep 1 scenarioThree).map Prod.fst) :=
  ⟨validateStep1_firstName_key d, validateStep1_lastName_key d,
    validateStep1_email_key d, by decide⟩

/-! ### C3: bucket structure -/

/-- The buckets component, as the classifier builds it. -/
lemma buckets_eq (d : IntakeData) :
    (computeClassification d).buckets =
      (if "abuse" ∈ d.concerns then ["Safety/Crisis"] else []) ++
      (if "emotional" ∈ d.concerns ∨ "addiction" ∈ d.concerns then
        ["Mental Health & Addiction"] else []) ++
      (if "employment" ∈ d.concerns then ["Employment & Skills"] else []) ++
      (if "finance" ∈ d.concerns then ["Money/Debt Advice"] else []) ++
      (if "housing" ∈ d.concerns then ["Housing Support"] else []) ++
      (if "relationships" ∈ d.concerns then ["Family/Relationship Support"] else []) ++
      (if "health" ∈ d.concerns then ["Physical Health Navigation"] else []) ++
      (if "social" ∈ d.concerns then ["Connection/Peer Support"] else []) := rfl

lemma ite_singleton_sublist (p : Prop) [Decidable p] (x : String) :
    (if p then [x] else []).Sublist [x] := by
  split
  · exact List.Sublist.refl _
  · exact List.nil_sublist _

lemma mem_ite_singleton {p : Prop} [Decidable p] {x y : String} :
    (y ∈ if p then [x] else ([] : List String)) ↔ p ∧ y = x := by
  split <;> simp_all

/-- The buckets list is a sublist of the canonical order. -/
lemma buckets_sublist_canonical (d : IntakeData) :
    (computeClassification d).buckets.Sublist canonicalBucketOrder := by
  rw [buckets_eq]
  show List.Sublist _ (["Safety/Crisis"] ++ ["Mental Health & Addiction"] ++
    ["Employment & Skills"] ++ ["Money/Debt Advice"] ++ ["Housing Support"] ++
    ["Family/Relationship Support"] ++ ["Physical Health Navigation"] ++
    ["Connection/Peer Support"])
  exact (((((((ite_singleton_sublist _ _).append
    (ite_singleton_sublist _ _)).append
    (ite_singleton_sublist _ _)).append
    (ite_singleton_sublist _ _)).append
    (ite_singleton_sublist _ _)).append
    (ite_singleton_sublist _ _)).append
    (ite_singleton_sublist _ _)).append
    (ite_singleton_sublist _ _)

/-- **C3.** The buckets list has no duplicates, is a sublist of the fixed
canonical order, contains each bucket exactly when its triggering concern
keys are present (so it is independent of the order in which concerns
were added), and contains "Mental Health & Addiction" exactly once even
when both "emotional" and "addiction" are present. -/
theorem buckets_nodup_canonical_and_triggered (d : IntakeData) :
    (computeClassification d).buckets.Nodup ∧
    (computeClassification d).buckets.Sublist canonicalBucketOrder ∧
    (∀ c' : List String, (∀ k, k ∈ c' ↔ k ∈ d.concerns) →
      (computeClassification { d with concerns := c' }).buckets =
        (computeClassification d).buckets) ∧
    ("Safety/Crisis" ∈ (computeClassification d).buckets ↔ "abuse" ∈ d.concerns) ∧
    ("Mental Health & Addiction" ∈ (computeClassification d).buckets ↔
      ("emotional" ∈ d.concerns ∨ "addiction" ∈ d.concerns)) ∧
    ("Employment & Skills" ∈ (computeClassification d).buckets ↔
      "employment" ∈ d.concerns) ∧
    ("Money/Debt Advice" ∈ (computeClassification d).buckets ↔
      "finance" ∈ d.concerns) ∧
    ("Housing Support" ∈ (computeClassification d).buckets ↔
      "housing" ∈ d.concerns) ∧
    ("Family/Relationship Support" ∈ (computeClassification d).buckets ↔
      "relationships" ∈ d.concerns) ∧
    ("Physical Health Navigation" ∈ (computeClassification d).buckets ↔
      "health" ∈ d.concerns) ∧
    ("Connection/Peer Support" ∈ (computeClassification d).buckets ↔
      "social" ∈ d.concerns) ∧
    (("emotional" ∈ d.concerns ∨ "addiction" ∈ d.concerns) →
      (computeClassification d).buckets.count "Mental Health & Addiction" = 1) := by
  have hnodup : (computeClassification d).buckets.Nodup :=
    (buckets_sublist_canonical d).nodup (by decide)
  have hmha : "Mental Health & Addiction" ∈ (computeClassification d).buckets ↔
      ("emotional" ∈ d.concerns ∨ "addiction" ∈ d.concerns) := by
    rw [buckets_eq]
    simp [List.mem_append, mem_ite_singleton]
  refine ⟨hnodup, buckets_sublist_canonical d, ?_, ?_, hmha, ?_, ?_, ?_, ?_, ?_, ?_, ?_⟩
  · intro c' h
    rw [buckets_eq, buckets_eq]
    rw [if_congr (h "abuse") rfl rfl,
      if_congr (or_congr (h "emotional") (h "addiction")) rfl rfl,
      if_congr (h "employment") rfl rfl,
      if_congr (h "finance") rfl rfl,
      if_congr (h "housing") rfl rfl,
      if_congr (h "relationships") rfl rfl,
      if_congr (h "health") rfl rfl,
      if_congr (h "social") rfl rfl]
  · rw [buckets_eq]
    simp [List.mem_append, mem_ite_singleton]
  · rw [buckets_eq]
    simp [List.mem_append, mem_ite_singleton]
  · rw [buckets_eq]
    simp [List.mem_append, mem_ite_singleton]
  · rw [buckets_eq]
    simp [List.mem_append, mem_ite_singleton]
  · rw [buckets_eq]
    simp [List.mem_append, mem_ite_singleton]
  · rw [buckets_eq]
    simp [List.mem_append, mem_ite_singleton]
  · rw [buckets_eq]
    simp [List.mem_append, mem_ite_singleton]
  · intro h
    exact List.count_eq_one_of_mem hnodup (hmha.mpr h)

/-- Witness for C3 at a concrete record: with both "emotional" and
"addiction" selected, "Mental Health & Addiction" appears exactly once. -/
theorem buckets_nodup_canonical_and_triggered_witness :
    (computeClassification
      { initialData with concerns := ["addiction", "emotional"] }).buckets.count
        "Mental Health & Addiction" = 1 :=
  (buckets_nodup_canonical_and_triggered
    { initialData with concerns := ["addiction", "emotional"] }).2.2.2.2.2.2.2.2.2.2.2
    (Or.inl (by decide))

/-! ### C7: idempotency-key generation -/

/-- **C7.** `generateSecureId` never consults the wall clock, and in every
environment either returns an identifier from a cryptographically strong
source (`crypto.randomUUID`, else `crypto.getRandomValues`) or throws
when neither is available. -/
theorem generateSecureId_never_clock_never_weak (env : CryptoEnv) :
    (∀ n₁ n₂ : Nat, generateSecureId { env with dateNow := n₁ } =
      generateSecureId { env with dateNow := n₂ }) ∧
    (∀ u, env.randomUUID = some u → generateSecureId env = Except.ok u) ∧
    (∀ b, env.randomUUID = none → env.getRandomValues = some b →
      generateSecureId env = Except.ok (formatUuidFromBytes b)) ∧
    (env.randomUUID = none → env.getRandomValues = none →
      generateSecureId env = Except.error "Crypto API not available") := by
  refine ⟨fun n₁ n₂ => rfl, ?_, ?_, ?_⟩
  · intro u hu
    simp [generateSecureId, hu]
  · intro b h1 h2
    simp [generateSecureId, h1, h2]
  · intro h1 h2
    simp [generateSecureId, h1, h2]

/-- Witness for C7: with no crypto source at all, the generator throws. -/
theorem generateSecureId_never_clock_never_weak_witness :
    generateSecureId { randomUUID := none, getRandomValues := none, dateNow := 1700000000 } =
      Except.error "Crypto API not available" :=
  (generateSecureId_never_clock_never_weak _).2.2.2 rfl rfl

/-! ### C6: sanitizer idempotence

The escaping itself is idempotent (no replacement string contains an
escaped character, and `&` is never escaped), but `slice(0, 5000)` runs
after `trim`, so truncation can expose trailing whitespace that only a
second sanitization removes. -/

/-- The five sequential character replacements of `sanitizeInput`. -/
def escapeChain (l : List Char) : List Char :=
  replChar '/' ("&#x2F;".data)
    (replChar squote ("&#x27;".data)
      (replChar '"' ("&quot;".data)
        (replChar '>' ("&gt;".data)
          (replChar '<' ("&lt;".data) l))))

lemma sanitizeInput_def (s : String) :
    sanitizeInput s = ⟨(jsTrim (escapeChain s.data)).take MAX_TEXT_LENGTH⟩ := rfl

lemma replChar_append (p : Char) (r l₁ l₂ : List Char) :
    replChar p r (l₁ ++ l₂) = replChar p r l₁ ++ replChar p r l₂ := by
  induction l₁ with
  | nil => rfl
  | cons a l ih => simp [replChar, ih]

lemma mem_replChar {c p : Char} {r l : List Char} (h : c ∈ replChar p r l) :
    c ∈ r ∨ (c ∈ l ∧ c ≠ p) := by
  induction l with
  | nil => simp [replChar] at h
  | cons a l ih =>
    simp only [replChar, List.mem_append] at h
    rcases h with h | h
    · split at h
      · exact Or.inl h
      · rename_i hne
        simp only [List.mem_singleton] at h
        subst h
        exact Or.inr ⟨List.mem_cons_self _ _, hne⟩
    · rcases ih h with h' | ⟨hm, hne⟩
      · exact Or.inl h'
      · exact Or.inr ⟨List.mem_cons_of_mem _ hm, hne⟩

lemma replChar_of_not_mem {p : Char} {r l : List Char} (h : p ∉ l) :
    replChar p r l = l := by
  induction l with
  | nil => rfl
  | cons a l ih =>
    simp only [List.mem_cons, not_or] at h
    simp [replChar, Ne.symm h.1, ih h.2]

/-- No character of any replacement string is itself escaped. -/
lemma replacement_chars_not_special :
    ∀ x ∈ ("&#x2F;".data ++ "&#x27;".data ++ "&quot;".data ++
        "&gt;".data ++ "&lt;".data),
      x ≠ '<' ∧ x ≠ '>' ∧ x ≠ '"' ∧ x ≠ squote ∧ x ≠ '/' := by
  decide

/-- Every character of an escaped list is non-special. -/
lemma escapeChain_no_special {c : Char} {l : List Char} (h : c ∈ escapeChain l) :
    c ≠ '<' ∧ c ≠ '>' ∧ c ≠ '"' ∧ c ≠ squote ∧ c ≠ '/' := by
  unfold escapeChain at h
  have hr := replacement_chars_not_special c
  simp only [List.mem_append] at hr
  rcases mem_replChar h with h5 | ⟨h, hslash⟩
  · exact hr (Or.inl (Or.inl (Or.inl (Or.inl h5))))
  rcases mem_replChar h with h4 | ⟨h, hquote⟩
  · exact hr (Or.inl (Or.inl (Or.inl (Or.inr h4))))
  rcases mem_replChar h with h3 | ⟨h, hdq⟩
  · exact hr (Or.inl (Or.inl (Or.inr h3)))
  rcases mem_replChar h with h2 | ⟨h, hgt⟩
  · exact hr (Or.inl (Or.inr h2))
  rcases mem_replChar h with h1 | ⟨h, hlt⟩
  · exact hr (Or.inr h1)
  exact ⟨hlt, hgt, hdq, hquote, hslash⟩

/-- Escaping a list with no special characters is a no-op. -/
lemma escapeChain_of_no_special {l : List Char}
    (h : ∀ c ∈ l, c ≠ '<' ∧ c ≠ '>' ∧ c ≠ '"' ∧ c ≠ squote ∧ c ≠ '/') :
    escapeChain l = l := by
  have h1 : '<' ∉ l := fun hm => (h _ hm).1 rfl
  have h2 : '>' ∉ l := fun hm => (h _ hm).2.1 rfl
  have h3 : '"' ∉ l := fun hm => (h _ hm).2.2.1 rfl
  have h4 : squote ∉ l := fun hm => (h _ hm).2.2.2.1 rfl
  have h5 : '/' ∉ l := fun hm => (h _ hm).2.2.2.2 rfl
  unfold escapeChain
  rw [replChar_of_not_mem h1, replChar_of_not_mem h2, replChar_of_not_mem h3,
    replChar_of_not_mem h4, replChar_of_not_mem h5]

lemma dropWhile_dropWhile (p : Char → Bool) (l : List Char) :
    (l.dropWhile p).dropWhile p = l.dropWhile p := by
  induction l with
  | nil => rfl
  | cons a l ih =>
    by_cases hp : p a
    · simp [List.dropWhile_cons, hp, ih]
    · simp [List.dropWhile_cons, hp]

lemma head?_dropWhile (p : Char → Bool) (l : List Char) :
    ∀ x ∈ (l.dropWhile p).head?, p x = false := by
  induction l with
  | nil => simp
  | cons a l ih =>
    by_cases hp : p a
    · simpa [List.dropWhile_cons, hp] using ih
    · rw [List.dropWhile_cons, if_neg (by simpa using hp)]
      intro x hx
      rw [List.head?_cons, Option.mem_def, Option.some.injEq] at hx
      subst hx
      simpa using hp

lemma dropWhile_eq_self_of_head {p : Char → Bool} {l : List Char}
    (h : ∀ x ∈ l.head?, p x = false) : l.dropWhile p = l := by
  cases l with
  | nil => rfl
  | cons a l =>
    have := h a (by simp)
    simp [List.dropWhile_cons, this]

lemma getLast?_dropWhile {p : Char → Bool} {l : List Char}
    (h : l.dropWhile p ≠ []) : (l.dropWhile p).getLast? = l.getLast? := by
  induction l with
  | nil => simp at h
  | cons a l ih =>
    by_cases hp : p a
    · rw [List.dropWhile_cons, if_pos (by simp [hp])] at h ⊢
      rw [ih h]
      have hl : l ≠ [] := by
        intro e
        rw [e] at h
        simp at h
      cases l with
      | nil => exact absurd rfl hl
      | cons b m => exact (List.getLast?_cons_cons).symm
    · rw [List.dropWhile_cons, if_neg (by simp [hp])]

lemma jsTrim_eq_self {l : List Char}
    (hh : ∀ x ∈ l.head?, isJsWs x = false)
    (hl : ∀ x ∈ l.getLast?, isJsWs x = false) : jsTrim l = l := by
  unfold jsTrim
  rw [dropWhile_eq_self_of_head hh]
  rw [dropWhile_eq_self_of_head (by rw [List.head?_reverse]; exact hl)]
  exact List.reverse_reverse l

lemma mem_jsTrim {c : Char} {l : List Char} (h : c ∈ jsTrim l) : c ∈ l := by
  unfold jsTrim at h
  rw [List.mem_reverse] at h
  have h2 := (List.dropWhile_sublist _).subset h
  rw [List.mem_reverse] at h2
  exact (List.dropWhile_sublist _).subset h2

lemma jsTrim_idem (l : List Char) : jsTrim (jsTrim l) = jsTrim l := by
  apply jsTrim_eq_self
  · unfold jsTrim
    intro x hx
    rw [List.head?_reverse] at hx
    by_cases hC : (List.reverse (List.dropWhile isJsWs l)).dropWhile isJsWs = []
    · rw [hC] at hx
      simp at hx
    · rw [getLast?_dropWhile hC, List.getLast?_reverse] at hx
      exact head?_dropWhile _ _ x hx
  · unfold jsTrim
    intro x hx
    rw [List.getLast?_reverse] at hx
    exact head?_dropWhile _ _ x hx

/-- **C6 (amended).** Sanitizing an already-sanitized string is a no-op
whenever the escaped, trimmed text fits in `MAX_TEXT_LENGTH` (no
truncation).  In particular escaping never touches `&`, so a string
containing the text `&lt;` is not turned into `&amp;lt;`. -/
theorem sanitizeInput_idempotent_of_no_truncation (s : String)
    (h : (jsTrim (escapeChain s.data)).length ≤ MAX_TEXT_LENGTH) :
    sanitizeInput (sanitizeInput s) = sanitizeInput s := by
  have hts : sanitizeInput s = ⟨jsTrim (escapeChain s.data)⟩ := by
    rw [sanitizeInput_def, List.take_of_length_le h]
  have hspec : ∀ c ∈ jsTrim (escapeChain s.data),
      c ≠ '<' ∧ c ≠ '>' ∧ c ≠ '"' ∧ c ≠ squote ∧ c ≠ '/' :=
    fun c hc => escapeChain_no_special (mem_jsTrim hc)
  have hesc : escapeChain (jsTrim (escapeChain s.data)) = jsTrim (escapeChain s.data) :=
    escapeChain_of_no_special hspec
  have htrim : jsTrim (jsTrim (escapeChain s.data)) = jsTrim (escapeChain s.data) :=
    jsTrim_idem _
  rw [hts, sanitizeInput_def]
  show (⟨(jsTrim (escapeChain (jsTrim (escapeChain s.data)))).take MAX_TEXT_LENGTH⟩ : String) = _
  rw [hesc, htrim, List.take_of_length_le h]

/-- Witness for the amended C6 at a short concrete string. -/
theorem sanitizeInput_idempotent_of_no_truncation_witness :
    (jsTrim (escapeChain ("a<b&lt; c".data))).length ≤ MAX_TEXT_LENGTH ∧
      sanitizeInput (sanitizeInput "a<b&lt; c") = sanitizeInput "a<b&lt; c" :=
  ⟨by decide, sanitizeInput_idempotent_of_no_truncation "a<b&lt; c" (by decide)⟩

/-- The truncated-tail counterexample input: 1249 `<` characters followed
by `abc x`.  Escaping expands it to 5001 characters, so the slice cuts
after the space that precedes the final `x`. -/
def cexInput : String := ⟨List.replicate 1249 '<' ++ ['a', 'b', 'c', ' ', 'x']⟩

/-- The escaped form of the 1249 `<` characters. -/
def cexP : List Char := replChar '<' ("&lt;".data) (List.replicate 1249 '<')

lemma replChar_replicate_length (p : Char) (r : List Char) (n : Nat) :
    (replChar p r (List.replicate n p)).length = n * r.length := by
  induction n with
  | zero => simp [replChar]
  | succ n ih =>
    simp [List.replicate_succ, replChar, ih]
    ring

lemma cexP_length : cexP.length = 4996 := by
  rw [cexP, replChar_replicate_length]
  rfl

lemma cexP_chars : ∀ c ∈ cexP, c ∈ ("&lt;".data) := by
  intro c hc
  rcases mem_replChar hc with h | ⟨hm, hne⟩
  · exact h
  · exact absurd (List.eq_of_mem_replicate hm) hne

lemma cexP_cons :
    cexP = '&' :: ('l' :: ('t' :: (';' ::
      replChar '<' ("&lt;".data) (List.replicate 1248 '<')))) := rfl

/-- Characters appearing anywhere in the escaped counterexample. -/
lemma cex_no_special {tail : List Char}
    (htail : ∀ c ∈ tail, c ≠ '<' ∧ c ≠ '>' ∧ c ≠ '"' ∧ c ≠ squote ∧ c ≠ '/') :
    ∀ c ∈ cexP ++ tail, c ≠ '<' ∧ c ≠ '>' ∧ c ≠ '"' ∧ c ≠ squote ∧ c ≠ '/' := by
  intro c hc
  rcases List.mem_append.1 hc with h | h
  · have hm := cexP_chars c h
    have hall : ∀ x ∈ ("&lt;".data),
        x ≠ '<' ∧ x ≠ '>' ∧ x ≠ '"' ∧ x ≠ squote ∧ x ≠ '/' := by decide
    exact hall c hm
  · exact htail c h

lemma cex_escape :
    escapeChain (List.replicate 1249 '<' ++ ['a', 'b', 'c', ' ', 'x']) =
      cexP ++ ['a', 'b', 'c', ' ', 'x'] := by
  have hns : ∀ c ∈ cexP ++ ['a', 'b', 'c', ' ', 'x'],
      c ≠ '<' ∧ c ≠ '>' ∧ c ≠ '"' ∧ c ≠ squote ∧ c ≠ '/' :=
    cex_no_special (by decide)
  have h2 : '>' ∉ cexP ++ ['a', 'b', 'c', ' ', 'x'] := fun hm => (hns _ hm).2.1 rfl
  have h3 : '"' ∉ cexP ++ ['a', 'b', 'c', ' ', 'x'] := fun hm => (hns _ hm).2.2.1 rfl
  have h4 : squote ∉ cexP ++ ['a', 'b', 'c', ' ', 'x'] := fun hm => (hns _ hm).2.2.2.1 rfl
  have h5 : '/' ∉ cexP ++ ['a', 'b', 'c', ' ', 'x'] := fun hm => (hns _ hm).2.2.2.2 rfl
  unfold escapeChain
  rw [replChar_append, replChar_of_not_mem (by decide : '<' ∉ ['a', 'b', 'c', ' ', 'x'])]
  rw [show replChar '<' ("&lt;".data) (List.replicate 1249 '<') = cexP from rfl]
  rw [replChar_of_not_mem h2, replChar_of_not_mem h3, replChar_of_not_mem h4,
    replChar_of_not_mem h5]

lemma cex_head (tail : List Char) :
    ∀ x ∈ (cexP ++ tail).head?, isJsWs x = false := by
  rw [cexP_cons]
  intro x hx
  rw [List.cons_append, List.head?_cons, Option.mem_def, Option.some.injEq] at hx
  subst hx
  decide

lemma cex_trim1 :
    jsTrim (cexP ++ ['a', 'b', 'c', ' ', 'x']) = cexP ++ ['a', 'b', 'c', ' ', 'x'] := by
  apply jsTrim_eq_self (cex_head _)
  intro x hx
  rw [show cexP ++ ['a', 'b', 'c', ' ', 'x'] =
      (cexP ++ ['a', 'b', 'c', ' ']) ++ ['x'] by simp,
    List.getLast?_concat, Option.mem_def, Option.some.injEq] at hx
  subst hx
  decide

lemma cex_take1 :
    (cexP ++ ['a', 'b', 'c', ' ', 'x']).take MAX_TEXT_LENGTH =
      cexP ++ ['a', 'b', 'c', ' '] := by
  rw [List.take_append_eq_append_take,
    List.take_of_length_le (by rw [cexP_length]; decide), cexP_length]
  rfl

/-- First sanitization of the counterexample: the slice cuts right after
the space. -/
lemma cex_sanitize1 :
    sanitizeInput cexInput = ⟨cexP ++ ['a', 'b', 'c', ' ']⟩ := by
  rw [sanitizeInput_def]
  show (⟨(jsTrim (escapeChain (List.replicate 1249 '<' ++
      ['a', 'b', 'c', ' ', 'x']))).take MAX_TEXT_LENGTH⟩ : String) = _
  rw [cex_escape, cex_trim1, cex_take1]

lemma cex_trim2 :
    jsTrim (cexP ++ ['a', 'b', 'c', ' ']) = cexP ++ ['a', 'b', 'c'] := by
  unfold jsTrim
  rw [dropWhile_eq_self_of_head (cex_head _)]
  rw [List.reverse_append]
  rw [show List.reverse ['a', 'b', 'c', ' '] ++ cexP.reverse =
      ' ' :: ('c' :: (['b', 'a'] ++ cexP.reverse)) from rfl]
  rw [List.dropWhile_cons, if_pos (by decide)]
  rw [List.dropWhile_cons, if_neg (by decide)]
  rw [show ('c' :: (['b', 'a'] ++ cexP.reverse)) = (cexP ++ ['a', 'b', 'c']).reverse
    from by rw [List.reverse_append]; rfl]
  exact List.reverse_reverse _

/-- Second sanitization: the escape is a no-op, the trim removes the
exposed trailing space, and the slice is a no-op. -/
lemma cex_sanitize2 :
    sanitizeInput ⟨cexP ++ ['a', 'b', 'c', ' ']⟩ = ⟨cexP ++ ['a', 'b', 'c']⟩ := by
  rw [sanitizeInput_def]
  show (⟨(jsTrim (escapeChain (cexP ++ ['a', 'b', 'c', ' ']))).take MAX_TEXT_LENGTH⟩ :
    String) = _
  rw [escapeChain_of_no_special (cex_no_special (by decide)), cex_trim2]
  rw [List.take_of_length_le
    (by rw [List.length_append, cexP_length]; decide)]

/-- **C6 (counterexample).** Sanitization is not idempotent on every
string: on `cexInput` the first pass truncates to a string ending in a
space and the second pass removes that space. -/
theorem sanitizeInput_not_idempotent :
    ¬ (sanitizeInput (sanitizeInput cexInput) = sanitizeInput cexInput) := by
  rw [cex_sanitize1, cex_sanitize2]
  intro hEq
  have hdata : cexP ++ ['a', 'b', 'c'] = cexP ++ ['a', 'b', 'c', ' '] :=
    congrArg String.data hEq
  have hlen := congrArg List.length hdata
  simp [List.length_append] at hlen

end Uid
